import Mathlib

/-!
Verification development for the `quick_timer` Home Assistant custom
integration (files `custom_components/quick_timer/__init__.py`,
`store.py`, `const.py`).  The definitions below are a shallow embedding
of the coordinator, the task store and the preference store.  Python
dicts are embedded as association lists over `String` keys, datetimes
as wall-clock microseconds since an epoch (`PyDateTime`), and the
external collaborators (service dispatch, datetime parsing) as explicit
function parameters.
-/

/-- Wall-clock instant, microseconds since an epoch (naive datetime
arithmetic, matching Python `datetime` plus or minus `timedelta` on a
fixed-offset timezone). -/
structure PyDateTime where
  usec : Int
deriving DecidableEq, Repr

/-- Microseconds in one day. -/
def usecPerDay : Int := 86400 * 1000000

/-- Start of the calendar day containing `t` (what Python
`replace(hour=..., minute=..., second=0, microsecond=0)` keeps of the
date part). -/
def startOfDay (t : PyDateTime) : PyDateTime :=
  ⟨t.usec - Int.emod t.usec usecPerDay⟩

/-- Python `now.replace(hour=h, minute=m, second=0, microsecond=0)`. -/
def replaceHM (t : PyDateTime) (hour minute : Int) : PyDateTime :=
  ⟨(startOfDay t).usec + (hour * 3600 + minute * 60) * 1000000⟩

/-- Association-list lookup: Python `dict.get` / `dict[k]`. -/
def alookup {α : Type} : List (String × α) → String → Option α
  | [], _ => none
  | (k2, v) :: rest, k => if k2 = k then some v else alookup rest k

/-- Association-list insert: Python `dict[k] = v` (replace in place if the
key is present, else append). -/
def ainsert {α : Type} : List (String × α) → String → α → List (String × α)
  | [], k, v => [(k, v)]
  | (k2, v2) :: rest, k, v =>
    if k2 = k then (k, v) :: rest else (k2, v2) :: ainsert rest k v

/-- Association-list delete: Python `del dict[k]`. -/
def eraseKey {α : Type} : List (String × α) → String → List (String × α)
  | [], _ => []
  | (k2, v) :: rest, k =>
    if k2 = k then eraseKey rest k else (k2, v) :: eraseKey rest k

/-- Key membership in a key list: Python `k in dict`. -/
def memb : List String → String → Bool
  | [], _ => false
  | x :: rest, k => if x = k then true else memb rest k

/-- Delete a key from a key list: Python `del dict[k]` on a dict whose
values we do not model. -/
def eraseElem : List String → String → List String
  | [], _ => []
  | x :: rest, k => if x = k then eraseElem rest k else x :: eraseElem rest k

/-- Insert a key into a key list: Python `dict[k] = v` on a dict whose
values we do not model (keeps position if present). -/
def keyInsert (l : List String) (k : String) : List String :=
  if memb l k then l else l ++ [k]

/-- Python truthiness of an optional string (`None` and `""` are falsy). -/
def pyTruthy : Option String → Bool
  | none => false
  | some s => s ≠ ""

/-- Python `a or b` on optional strings: the first operand if truthy,
otherwise the second operand unchanged. -/
def pyOrStr (a b : Option String) : Option String :=
  match a with
  | some s => if s = "" then b else some s
  | none => b

/-- Whitespace characters stripped by Python `int(str)` (the ASCII subset
relevant to HH:MM inputs). -/
def isPyWs (c : Char) : Bool :=
  c = ' ' ∨ c = '\t' ∨ c = '\n' ∨ c = '\r'

/-- Accumulate decimal digits, allowing single underscores between digits
as Python `int` does; any other character is a `ValueError` (`none`). -/
def pyDigitsAux : List Char → Nat → Option Nat
  | [], acc => some acc
  | '_' :: c :: rest, acc =>
    if c.isDigit then pyDigitsAux rest (acc * 10 + (c.toNat - '0'.toNat)) else none
  | c :: rest, acc =>
    if c.isDigit then pyDigitsAux rest (acc * 10 + (c.toNat - '0'.toNat)) else none

/-- Nonempty digit run (first character must be a digit). -/
def pyNatDigits : List Char → Option Nat
  | [] => none
  | c :: rest => if c.isDigit then pyDigitsAux rest (c.toNat - '0'.toNat) else none

/-- Python `int(str)`: strip whitespace, optional sign, decimal digits. -/
def pyInt (s : List Char) : Option Int :=
  let t := ((s.dropWhile isPyWs).reverse.dropWhile isPyWs).reverse
  match t with
  | '+' :: rest => (pyNatDigits rest).map Int.ofNat
  | '-' :: rest => (pyNatDigits rest).map (fun n => -(n : Int))
  | _ => (pyNatDigits t).map Int.ofNat

/-- Python `s.split(':')` (single-character separator, no merging). -/
def splitColon : List Char → List (List Char)
  | [] => [[]]
  | ':' :: rest => [] :: splitColon rest
  | c :: rest =>
    match splitColon rest with
    | [] => [[c]]
    | piece :: pieces => (c :: piece) :: pieces

/-- `hours, minutes = map(int, at_time.split(':'))` from
`__init__.py:190`; `none` models the caught `ValueError` (wrong number of
fields or a field that is not an integer literal). -/
def parseAtTime (s : String) : Option (Int × Int) :=
  match splitColon s.data with
  | [h, m] =>
    match pyInt h, pyInt m with
    | some hv, some mv => some (hv, mv)
    | _, _ => none
  | _ => none

/-- `convert_to_seconds` from `__init__.py:89-96`. -/
def convert_to_seconds (delay : Int) (unit : String) : Int :=
  if unit = "seconds" then delay
  else if unit = "hours" then delay * 3600
  else delay * 60

/-- `get_reverse_action` from `__init__.py:99-105`. -/
def get_reverse_action (action : String) : String :=
  if action = "on" then "off"
  else if action = "off" then "on"
  else "toggle"

/-- Outcome of the time computation in `async_schedule_action`
(`__init__.py:186-208`): either the fire instant plus `delay_seconds`,
or the caught `ValueError` that makes the function log and return. -/
inductive TimeComp where
  | ok (scheduled_time : PyDateTime) (delay_seconds : Int)
  | err
deriving DecidableEq, Repr

/-- The time computation of `async_schedule_action`
(`__init__.py:184-208`).  In absolute mode with a truthy `at_time` the
string is parsed as HH:MM and `now.replace(...)` is applied (Python
`replace` raises `ValueError`, caught by the same handler, when the hour
or minute is out of range); if the result is not after `now` one day is
added.  Otherwise the relative computation runs. -/
def computeTimes (time_mode : String) (at_time : Option String)
    (delay : Int) (unit : String) (now : PyDateTime) : TimeComp :=
  if time_mode = "absolute" ∧ pyTruthy at_time then
    match parseAtTime (at_time.getD "") with
    | none => .err
    | some (h, m) =>
      if 0 ≤ h ∧ h ≤ 23 ∧ 0 ≤ m ∧ m ≤ 59 then
        let st0 := replaceHM now h m
        let st := if st0.usec ≤ now.usec then PyDateTime.mk (st0.usec + usecPerDay) else st0
        .ok st ((st.usec - now.usec) / 1000000)
      else .err
  else
    let ds := convert_to_seconds delay unit
    .ok ⟨now.usec + ds * 1000000⟩ ds

/-- A persisted task record, with the fields the coordinator reads back
(`async_restore_tasks`, `async_cancel_action`).  Optional fields model
`dict.get` access; `action` models the mandatory `task["action"]`
access of the records written by the v3-era coordinator. -/
structure StoredTask where
  end_time : Option String := none
  scheduled_time : Option String := none
  action : String := ""
  notify : Option Bool := none
  run_now : Option Bool := none
deriving DecidableEq, Repr

/-- A bus event fired via `hass.bus.async_fire` (name, entity and the
one extra payload field the claims inspect: the action for
`task_completed`, the reason for `task_cancelled`). -/
structure FiredEvent where
  name : String
  entity_id : String
  info : String := ""
deriving DecidableEq, Repr

/-- One `hass.services.async_call` performed by `_execute_action`,
together with the outcome reported by the service registry. -/
structure SvcCall where
  domain : String
  service : String
  entity_id : String
  hvac_mode : Option String := none
  ok : Bool
deriving DecidableEq, Repr

/-- A preference-history entry; every field holds the Python value in its
rendered form (the composite key renders values with `str`). -/
structure HistoryEntry where
  action : Option String := none
  time_mode : Option String := none
  timestamp : Option String := none
  delay : Option String := none
  unit : Option String := none
  at_time : Option String := none
  start_actions : Option String := none
  finish_actions : Option String := none
deriving DecidableEq, Repr

/-- The composite dedup key of `async_add_to_history`
(`store.py:194-201`): absent scalar fields render as `""`, absent action
lists as `str([]) = "[]"`. -/
def historyEntryKey (e : HistoryEntry) : String :=
  e.time_mode.getD "" ++ "_" ++ e.delay.getD "" ++ "_" ++ e.unit.getD "" ++ "_" ++
  e.at_time.getD "" ++ "_" ++ e.start_actions.getD "[]" ++ "_" ++ e.finish_actions.getD "[]"

/-- A per-entity preference record: scalar fields merged by
`async_set_preferences`, plus the optional `history` list. -/
structure PrefRecord where
  fields : List (String × String) := []
  history : Option (List HistoryEntry) := none
deriving DecidableEq, Repr

/-- The mutable state touched by the coordinator: the task store map
(`store._data`), the timer-handle keys (`_scheduled_tasks`), the listener
map with the scheduled action each listener closes over
(`_state_listeners`), the preference store map, and append-only logs of
fired events, executor calls, notifications and logged errors. -/
structure CoordState where
  tasks : List (String × StoredTask) := []
  scheduledTasks : List String := []
  stateListeners : List (String × String) := []
  prefs : List (String × PrefRecord) := []
  events : List FiredEvent := []
  svcCalls : List SvcCall := []
  notifs : List (String × String) := []
  errorLog : List String := []
deriving DecidableEq, Repr

/-- Outcome oracle for `hass.services.async_call`
(domain, service, entity_id ↦ success). -/
def SvcOracle : Type := String → String → String → Bool

/-- The (domain, service, extra data) resolution of `_execute_action`
(`__init__.py:340-394`). -/
structure ResolvedService where
  domain : String
  service : String
  hvac_mode : Option String := none
deriving DecidableEq, Repr

/-- `entity_id.split(".")[0]`: the characters before the first dot. -/
def entityDomain (entity_id : String) : String :=
  ⟨entity_id.data.takeWhile (fun c => c ≠ '.')⟩

/-- Python `str.upper()` on the ASCII action names. -/
def pyUpper (s : String) : String :=
  ⟨s.data.map Char.toUpper⟩

/-- Action-to-service mapping of `_execute_action`
(`__init__.py:342-394`). -/
def resolveService (entity_id action : String) : ResolvedService :=
  let domain := entityDomain entity_id
  if action = "on" then ⟨domain, "turn_on", none⟩
  else if action = "off" then ⟨domain, "turn_off", none⟩
  else if action = "toggle" then ⟨domain, "toggle", none⟩
  else if action = "turn_off" then ⟨domain, "turn_off", none⟩
  else if action = "open_cover" then ⟨"cover", "open_cover", none⟩
  else if action = "close_cover" then ⟨"cover", "close_cover", none⟩
  else if action = "stop_cover" then ⟨"cover", "stop_cover", none⟩
  else if action = "media_play" then ⟨"media_player", "media_play", none⟩
  else if action = "media_stop" then ⟨"media_player", "media_stop", none⟩
  else if action = "start" then ⟨"vacuum", "start", none⟩
  else if action = "return_to_base" then ⟨"vacuum", "return_to_base", none⟩
  else if action = "set_hvac_mode_heat" then ⟨"climate", "set_hvac_mode", some "heat"⟩
  else if action = "set_hvac_mode_cool" then ⟨"climate", "set_hvac_mode", some "cool"⟩
  else if action = "set_hvac_mode_auto" then ⟨"climate", "set_hvac_mode", some "auto"⟩
  else ⟨domain, "toggle", none⟩

/-- Append a fired bus event (`hass.bus.async_fire`). -/
def fireEvent (s : CoordState) (e : FiredEvent) : CoordState :=
  { s with events := s.events ++ [e] }

/-- `_send_notification` (`__init__.py:584-609`): best-effort, delivers
the (title, message) pair when at least one channel is requested; all
delivery failures are swallowed, so the coordinator state change is just
the appended notification. -/
def send_notification (s : CoordState) (title message : String)
    (notify_ha notify_mobile : Bool) : CoordState :=
  if notify_ha || notify_mobile then { s with notifs := s.notifs ++ [(title, message)] }
  else s

/-- `_execute_action` (`__init__.py:340-405`): resolve the service, call
it, and catch any failure (logging it); the method always returns
normally. -/
def execute_action (svc : SvcOracle) (s : CoordState)
    (entity_id action : String) : CoordState :=
  let r := resolveService entity_id action
  let ok := svc r.domain r.service entity_id
  let s1 := { s with svcCalls := s.svcCalls ++ [⟨r.domain, r.service, entity_id, r.hvac_mode, ok⟩] }
  if ok then s1
  else { s1 with errorLog := s1.errorLog ++
        ["Failed to execute action " ++ action ++ " for " ++ entity_id] }

/-- `_cleanup_task` (`__init__.py:525-540`): drop the timer-handle entry,
unsubscribe and drop the listener entry, remove the store record. -/
def cleanup_task (s : CoordState) (entity_id : String) : CoordState :=
  { s with scheduledTasks := eraseElem s.scheduledTasks entity_id,
           stateListeners := eraseKey s.stateListeners entity_id,
           tasks := eraseKey s.tasks entity_id }

/-- `async_cancel_action` (`__init__.py:542-582`). -/
def async_cancel_action (s : CoordState) (entity_id : String)
    (silent : Bool) (reason : String) : Bool × CoordState :=
  if memb s.scheduledTasks entity_id = false ∧ (alookup s.tasks entity_id).isSome = false then
    (false, s)
  else
    let task := alookup s.tasks entity_id
    let s1 := cleanup_task s entity_id
    let s2 := fireEvent s1 ⟨"quick_timer_task_cancelled", entity_id, reason⟩
    let s3 :=
      if silent = false ∧ task.isSome ∧ (task.map (fun t => t.notify.getD true)).getD false then
        if reason = "manual_state_change" then
          send_notification s2 ("Auto-cancelled: " ++ entity_id)
            "Scheduled action was cancelled because state was changed manually" true false
        else
          send_notification s2 ("Cancelled: " ++ entity_id)
            "Scheduled action was cancelled" true false
      else s2
    (true, s3)

/-- The `execute_action` callback built by `_create_action_callback`
(`__init__.py:469-523`).  Its `try` body cannot raise: `_execute_action`
catches executor failures internally, `async_fire` does not raise, and
`_send_notification` swallows delivery failures — so the `except` branch
(lines 505-518) is unreachable and the body is a straight line, followed
by the unconditional cleanup. -/
def execute_action_callback (svc : SvcOracle) (s : CoordState)
    (entity_id action : String) (notify notify_ha notify_mobile : Bool) : CoordState :=
  let s1 := execute_action svc s entity_id action
  let s2 := fireEvent s1 ⟨"quick_timer_task_completed", entity_id, action⟩
  let s3 :=
    if notify_ha || notify_mobile then
      send_notification s2 ("Executed: " ++ pyUpper action ++ " for " ++ entity_id)
        "Scheduled action completed successfully" notify_ha notify_mobile
    else s2
  cleanup_task s3 entity_id

/-- The redundancy decision of the state-change listener
(`__init__.py:431-453`). -/
def should_cancel_decision (scheduled_action old_state_value new_state_value : String) : Bool :=
  if scheduled_action = "on" ∧ new_state_value = "on" then true
  else if scheduled_action = "off" ∧ new_state_value = "off" then true
  else if scheduled_action = "toggle" ∧ new_state_value ≠ old_state_value then true
  else false

/-- One invocation of the `state_change_listener` closure installed by
`_setup_state_listener` (`__init__.py:419-458`); the cancel task it
creates runs on the same event loop and is modelled as immediate. -/
def state_change_listener (s : CoordState) (entity_id scheduled_action : String)
    (old_state new_state : Option String) : CoordState :=
  match new_state, old_state with
  | some n, some o =>
    if should_cancel_decision scheduled_action o n then
      (async_cancel_action s entity_id false "manual_state_change").2
    else s
  | _, _ => s

/-- `_setup_state_listener` (`__init__.py:416-467`): replace any existing
listener for the entity with one closing over `scheduled_action`. -/
def setup_state_listener (s : CoordState) (entity_id scheduled_action : String) : CoordState :=
  { s with stateListeners := ainsert s.stateListeners entity_id scheduled_action }

/-- Lines 653-654 of `async_restore_tasks`:
`end_time_str = task.get("end_time") or task.get("scheduled_time")` and
`dt_util.parse_datetime(end_time_str) if end_time_str else None`.  The
library parser is an explicit parameter. -/
def restoreParsedTime (parseDT : String → Option PyDateTime) (task : StoredTask) :
    Option PyDateTime :=
  match pyOrStr task.end_time task.scheduled_time with
  | some str => if str = "" then none else parseDT str
  | none => none

/-- Remove a record from the task store (`store.async_remove_task`). -/
def removeTaskS (s : CoordState) (entity_id : String) : CoordState :=
  { s with tasks := eraseKey s.tasks entity_id }

/-- The per-record body of the `async_restore_tasks` loop
(`__init__.py:652-690`): unparsable timestamp → drop the record; overdue
→ run the action callback now (note the callback is built with the third
positional argument `task.get("notify", True)` bound to `notify`, so
`notify_ha` and `notify_mobile` default to `False`); future → re-arm the
timer and, unless `run_now`, re-subscribe the listener. -/
def restoreOne (parseDT : String → Option PyDateTime) (svc : SvcOracle)
    (now : PyDateTime) (s : CoordState) (entity_id : String) (task : StoredTask) : CoordState :=
  match restoreParsedTime parseDT task with
  | none => removeTaskS s entity_id
  | some t =>
    if t.usec ≤ now.usec then
      execute_action_callback svc s entity_id task.action (task.notify.getD true) false false
    else
      let s1 := { s with scheduledTasks := keyInsert s.scheduledTasks entity_id }
      if (task.run_now.getD false) = false then
        setup_state_listener s1 entity_id task.action
      else s1

/-- `async_restore_tasks` (`__init__.py:647-692`): iterate over a
snapshot of the store (`list(tasks.items())`) applying the per-record
body. -/
def async_restore_tasks (parseDT : String → Option PyDateTime) (svc : SvcOracle)
    (now : PyDateTime) (s : CoordState) : CoordState :=
  s.tasks.foldl (fun st p => restoreOne parseDT svc now st p.1 p.2) s

/-- `QuickTimerPreferencesStore.async_add_to_history`
(`store.py:179-225`). -/
def async_add_to_history (prefs : List (String × PrefRecord))
    (entity_id : String) (entry : HistoryEntry) : List (String × PrefRecord) :=
  let d := (alookup prefs entity_id).getD {}
  let history := d.history.getD []
  let entry_key := historyEntryKey entry
  let filtered := history.filter (fun h => historyEntryKey h ≠ entry_key)
  let newHist := (entry :: filtered).take 3
  ainsert prefs entity_id { d with history := some newHist }

/-- `QuickTimerPreferencesStore.async_set_preferences`
(`store.py:160-177`): shallow merge of the given fields (a `history` key
in the argument replaces the stored history wholesale), then truncation
of the history to 3 entries when one is present. -/
def async_set_preferences (prefs : List (String × PrefRecord)) (entity_id : String)
    (newFields : List (String × String)) (histOverride : Option (List HistoryEntry)) :
    List (String × PrefRecord) :=
  let d := (alookup prefs entity_id).getD {}
  let merged : PrefRecord :=
    { fields := newFields.foldl (fun acc p => ainsert acc p.1 p.2) d.fields,
      history := match histOverride with
                 | some h => some h
                 | none => d.history }
  let truncated : PrefRecord :=
    match merged.history with
    | some h => { merged with history := some (h.take 3) }
    | none => merged
  ainsert prefs entity_id truncated

/-- `QuickTimerMigratableStore._async_migrate_func` (`store.py:24-51`):
any `old_major_version < 4` returns `{}` (destructive), and so does the
unknown-version fallthrough. -/
def migrateFunc (old_major_version _old_minor_version : Nat)
    (_old_data : List (String × StoredTask)) : List (String × StoredTask) :=
  if old_major_version < 4 then [] else []

/-- The parameter names accepted by `QuickTimerStore.async_add_task`
(`store.py:78-93`); the method has no `**kwargs`. -/
def asyncAddTaskParams : List String :=
  ["task_id", "scheduled_time", "end_time", "delay_seconds", "start_actions",
   "finish_actions", "notify", "notify_ha", "notify_mobile", "notify_devices",
   "at_time", "time_mode", "task_label"]

/-- The keyword arguments `async_schedule_action` passes to
`store.async_add_task` (`__init__.py:224-237`). -/
def scheduleStoreCallKeywords : List String :=
  ["entity_id", "action", "scheduled_time", "end_time", "delay_seconds",
   "notify", "notify_ha", "notify_mobile", "run_now", "original_action",
   "at_time", "time_mode"]

/-- Python error raised by a call whose keyword arguments do not match
the callee signature. -/
inductive PyErr where
  | typeError
deriving DecidableEq, Repr

/-- `async_schedule_action` (`__init__.py:167-334`): silently cancel any
existing task, compute the times (a malformed absolute time logs and
returns early), on `run_now` execute the requested action immediately,
then call `store.async_add_task`.  That call binds the v3-era keyword
set `scheduleStoreCallKeywords` against the v4-era signature
`asyncAddTaskParams`; because `entity_id` (among others) is not an
accepted parameter the call raises `TypeError`, so lines 239-334
(history, preferences, timer, listener, started event, notification) are
unreachable from this call site and are not modelled. -/
def async_schedule_action (s : CoordState) (entity_id : String) (delay : Int)
    (unit action : String) (_notify run_now _notify_ha _notify_mobile : Bool)
    (at_time : Option String) (time_mode : String) (now : PyDateTime)
    (svc : SvcOracle) : Except PyErr CoordState :=
  let s1 := (async_cancel_action s entity_id true "user_request").2
  match computeTimes time_mode at_time delay unit now with
  | .err => .ok s1
  | .ok _scheduled_time _delay_seconds =>
    let _actual_action := if run_now then get_reverse_action action else action
    let s2 := if run_now then execute_action svc s1 entity_id action else s1
    if scheduleStoreCallKeywords.all (fun k => asyncAddTaskParams.contains k) then
      .ok s2
    else
      .error .typeError

/-! Concrete fixtures used by witnesses and counterexamples. -/

/-- A v3-era persisted task record for a light entity. -/
def demoTask : StoredTask :=
  { end_time := some "2024-01-01T10:00:00",
    scheduled_time := some "2024-01-01T09:00:00",
    action := "off", notify := some false, run_now := some false }

/-- A coordinator state with one scheduled task, one timer handle and one
state listener for `light.x`. -/
def demoState : CoordState :=
  { tasks := [("light.x", demoTask)],
    scheduledTasks := ["light.x"],
    stateListeners := [("light.x", "off")] }

/-- Service oracle on which every `hass.services.async_call` succeeds. -/
def svcOkOracle : SvcOracle := fun _ _ _ => true

/-- Service oracle on which every `hass.services.async_call` fails. -/
def svcFailOracle : SvcOracle := fun _ _ _ => false

/-- Validity of an `at_time` string for the absolute branch: it parses
as HH:MM and both fields are in range for `datetime.replace`. -/
def atTimeValid (at_time : Option String) : Bool :=
  match parseAtTime (at_time.getD "") with
  | none => false
  | some (h, m) => decide (0 ≤ h ∧ h ≤ 23 ∧ 0 ≤ m ∧ m ≤ 59)

/-- A relative-mode 10-minute history entry. -/
def dupEntryA : HistoryEntry :=
  { action := some "off", time_mode := some "relative",
    delay := some "10", unit := some "minutes" }

/-- A relative-mode 5-minute history entry (distinct composite key). -/
def newEntryB : HistoryEntry :=
  { action := some "off", time_mode := some "relative",
    delay := some "5", unit := some "minutes" }

/-- A preference map whose stored history already contains two entries
with the same composite key (such a history is reachable through the
public `set_preferences` service, whose shallow merge accepts an
arbitrary `history` list and only truncates it to 3). -/
def c9prefs : List (String × PrefRecord) :=
  [("light.x", { history := some [dupEntryA, dupEntryA] })]

/-- A preference map whose stored history has pairwise-distinct
composite keys. -/
def c9wprefs : List (String × PrefRecord) :=
  [("light.x", { history := some [dupEntryA] })]

/-! Helper lemmas about the dict embedding and the state helpers. -/

theorem alookup_eraseKey_self {α : Type} (m : List (String × α)) (k : String) :
    alookup (eraseKey m k) k = none := by
  induction m with
  | nil => rfl
  | cons p rest ih =>
    obtain ⟨k2, v⟩ := p
    by_cases h : k2 = k
    · simpa [eraseKey, h] using ih
    · simpa [eraseKey, alookup, h] using ih

theorem memb_eraseElem_self (l : List String) (k : String) :
    memb (eraseElem l k) k = false := by
  induction l with
  | nil => rfl
  | cons x rest ih =>
    by_cases h : x = k
    · simpa [eraseElem, h] using ih
    · simpa [eraseElem, memb, h] using ih

theorem alookup_ainsert_self {α : Type} (m : List (String × α)) (k : String) (v : α) :
    alookup (ainsert m k v) k = some v := by
  induction m with
  | nil => simp [ainsert, alookup]
  | cons p rest ih =>
    obtain ⟨k2, v2⟩ := p
    by_cases h : k2 = k
    · simp [ainsert, h, alookup]
    · simpa [ainsert, alookup, h] using ih

theorem memb_keyInsert_self (l : List String) (k : String) :
    memb (keyInsert l k) k = true := by
  unfold keyInsert
  by_cases h : memb l k
  · simpa [h] using h
  · simp only [h, if_neg (by simp [h] : ¬ memb l k = true)]
    induction l with
    | nil => simp [memb]
    | cons x rest ih =>
      by_cases hx : x = k
      · simp [memb, hx]
      · simp only [List.cons_append, memb, hx, if_neg hx]
        exact ih (by simpa [memb, hx] using h)

@[simp] theorem send_notification_tasks (s : CoordState) (t m : String) (a b : Bool) :
    (send_notification s t m a b).tasks = s.tasks := by
  unfold send_notification; split <;> rfl

@[simp] theorem send_notification_sched (s : CoordState) (t m : String) (a b : Bool) :
    (send_notification s t m a b).scheduledTasks = s.scheduledTasks := by
  unfold send_notification; split <;> rfl

@[simp] theorem send_notification_listeners (s : CoordState) (t m : String) (a b : Bool) :
    (send_notification s t m a b).stateListeners = s.stateListeners := by
  unfold send_notification; split <;> rfl

@[simp] theorem send_notification_prefs (s : CoordState) (t m : String) (a b : Bool) :
    (send_notification s t m a b).prefs = s.prefs := by
  unfold send_notification; split <;> rfl

@[simp] theorem send_notification_svcCalls (s : CoordState) (t m : String) (a b : Bool) :
    (send_notification s t m a b).svcCalls = s.svcCalls := by
  unfold send_notification; split <;> rfl

@[simp] theorem send_notification_events (s : CoordState) (t m : String) (a b : Bool) :
    (send_notification s t m a b).events = s.events := by
  unfold send_notification; split <;> rfl

@[simp] theorem execute_action_tasks (svc : SvcOracle) (s : CoordState) (e a : String) :
    (execute_action svc s e a).tasks = s.tasks := by
  simp only [execute_action]; split <;> rfl

@[simp] theorem execute_action_sched (svc : SvcOracle) (s : CoordState) (e a : String) :
    (execute_action svc s e a).scheduledTasks = s.scheduledTasks := by
  simp only [execute_action]; split <;> rfl

@[simp] theorem execute_action_listeners (svc : SvcOracle) (s : CoordState) (e a : String) :
    (execute_action svc s e a).stateListeners = s.stateListeners := by
  simp only [execute_action]; split <;> rfl

@[simp] theorem execute_action_prefs (svc : SvcOracle) (s : CoordState) (e a : String) :
    (execute_action svc s e a).prefs = s.prefs := by
  simp only [execute_action]; split <;> rfl

@[simp] theorem execute_action_events (svc : SvcOracle) (s : CoordState) (e a : String) :
    (execute_action svc s e a).events = s.events := by
  simp only [execute_action]; split <;> rfl

@[simp] theorem execute_action_notifs (svc : SvcOracle) (s : CoordState) (e a : String) :
    (execute_action svc s e a).notifs = s.notifs := by
  simp only [execute_action]; split <;> rfl

@[simp] theorem execute_action_svcCalls (svc : SvcOracle) (s : CoordState) (e a : String) :
    (execute_action svc s e a).svcCalls = s.svcCalls ++
      [⟨(resolveService e a).domain, (resolveService e a).service, e,
        (resolveService e a).hvac_mode, svc (resolveService e a).domain (resolveService e a).service e⟩] := by
  simp only [execute_action]; split <;> rfl

theorem async_cancel_action_fst (s : CoordState) (k : String) (silent : Bool) (reason : String) :
    (async_cancel_action s k silent reason).1
      = (memb s.scheduledTasks k || (alookup s.tasks k).isSome) := by
  cases hm : memb s.scheduledTasks k <;> cases hs : (alookup s.tasks k).isSome <;>
    simp [async_cancel_action, hm, hs]

theorem async_cancel_action_snd_not_found (s : CoordState) (k : String)
    (silent : Bool) (reason : String)
    (h : (memb s.scheduledTasks k || (alookup s.tasks k).isSome) = false) :
    (async_cancel_action s k silent reason).2 = s := by
  rw [Bool.or_eq_false_iff] at h
  simp [async_cancel_action, h.1, h.2]

theorem async_cancel_action_snd_found (s : CoordState) (k : String)
    (silent : Bool) (reason : String)
    (h : (memb s.scheduledTasks k || (alookup s.tasks k).isSome) = true) :
    (async_cancel_action s k silent reason).2.tasks = eraseKey s.tasks k ∧
    (async_cancel_action s k silent reason).2.scheduledTasks = eraseElem s.scheduledTasks k ∧
    (async_cancel_action s k silent reason).2.stateListeners = eraseKey s.stateListeners k ∧
    (async_cancel_action s k silent reason).2.prefs = s.prefs ∧
    (async_cancel_action s k silent reason).2.svcCalls = s.svcCalls := by
  rw [Bool.or_eq_true_iff] at h
  have hguard : ¬ (memb s.scheduledTasks k = false ∧ (alookup s.tasks k).isSome = false) := by
    rcases h with h | h <;> simp [h]
  simp only [async_cancel_action, if_neg hguard]
  refine ⟨?_, ?_, ?_, ?_, ?_⟩ <;>
    (split <;> (try split) <;> simp [fireEvent, cleanup_task])

theorem async_cancel_action_no_task (s : CoordState) (k : String)
    (silent : Bool) (reason : String) :
    alookup (async_cancel_action s k silent reason).2.tasks k = none := by
  cases h : (memb s.scheduledTasks k || (alookup s.tasks k).isSome) with
  | false =>
    rw [async_cancel_action_snd_not_found s k silent reason h]
    rw [Bool.or_eq_false_iff] at h
    simpa [Option.isSome_iff_exists] using h.2
  | true =>
    rw [(async_cancel_action_snd_found s k silent reason h).1]
    exact alookup_eraseKey_self _ _

theorem async_cancel_action_no_timer (s : CoordState) (k : String)
    (silent : Bool) (reason : String) :
    memb (async_cancel_action s k silent reason).2.scheduledTasks k = false := by
  cases h : (memb s.scheduledTasks k || (alookup s.tasks k).isSome) with
  | false =>
    rw [async_cancel_action_snd_not_found s k silent reason h]
    rw [Bool.or_eq_false_iff] at h
    exact h.1
  | true =>
    rw [(async_cancel_action_snd_found s k silent reason h).2.1]
    exact memb_eraseElem_self _ _

/-- Claim C1: the spec states that after a normal return of `schedule`
the Task Store contains exactly one record for the key, holding the
effective action.  In the code this cannot happen: the call
`store.async_add_task(entity_id=..., action=..., ...)` at
`__init__.py:224` passes the keyword `entity_id` (and `action`,
`run_now`, `original_action`), none of which is a parameter of
`QuickTimerStore.async_add_task` (`store.py:78-93`), so the call raises
`TypeError` and the task is never persisted.  The theorem records the
keyword mismatch and evaluates the embedded `async_schedule_action` on a
plain relative-mode request, showing it aborts exceptionally. -/
theorem c1_schedule_store_call_type_error :
    scheduleStoreCallKeywords.contains "entity_id" = true ∧
    asyncAddTaskParams.contains "entity_id" = false ∧
    asyncAddTaskParams.contains "action" = false ∧
    asyncAddTaskParams.contains "run_now" = false ∧
    asyncAddTaskParams.contains "original_action" = false ∧
    async_schedule_action {} "light.living_room" 10 "minutes" "on"
        false false false false none "relative" ⟨1700000000000000⟩ svcOkOracle
      = .error .typeError ∧
    async_schedule_action demoState "light.x" 10 "minutes" "on"
        false true false false none "relative" ⟨1700000000000000⟩ svcOkOracle
      = .error .typeError := by
  refine ⟨rfl, rfl, rfl, rfl, rfl, ?_, ?_⟩ <;> rfl

/-- Claim C4 counterexample: migrating data stored under version 2 (a
bump to version 3 that, per `const.py:5`, merely added preferences
support) does not preserve the existing record — the migration function
discards it and returns the empty map. -/
theorem c4_migration_counterexample :
    alookup [("light.x", demoTask)] "light.x" = some demoTask ∧
    alookup (migrateFunc 2 0 [("light.x", demoTask)]) "light.x" = none := by
  exact ⟨rfl, rfl⟩

/-- Claim C4 (amended): every migration of Task Store data stored under
an older schema version is destructive — `_async_migrate_func` returns
the empty map for every old version and every payload, both through the
`old_major_version < 4` branch and through the unknown-version
fallthrough (`store.py:39-51`). -/
theorem c4_migration_discards (maj min : Nat) (data : List (String × StoredTask)) :
    migrateFunc maj min data = [] := by
  unfold migrateFunc; split <;> rfl

/-- Claim C10: a schedule call with `time_mode="absolute"` but `at_time`
absent (`None`) or empty does not error: the guard at `__init__.py:187`
is falsy, so the computation silently falls through to the relative
branch and the fire time is `now + delay * unit_factor`. -/
theorem c10_absolute_without_at_time (delay : Int) (unit : String) (now : PyDateTime) :
    computeTimes "absolute" none delay unit now
      = .ok ⟨now.usec + convert_to_seconds delay unit * 1000000⟩ (convert_to_seconds delay unit) ∧
    computeTimes "absolute" (some "") delay unit now
      = .ok ⟨now.usec + convert_to_seconds delay unit * 1000000⟩ (convert_to_seconds delay unit) := by
  constructor <;> simp [computeTimes, pyTruthy]

theorem computeTimes_err_of_malformed (at_time : Option String) (delay : Int)
    (unit : String) (now : PyDateTime)
    (ht : pyTruthy at_time = true) (hv : atTimeValid at_time = false) :
    computeTimes "absolute" at_time delay unit now = .err := by
  unfold computeTimes
  rw [if_pos ⟨rfl, ht⟩]
  unfold atTimeValid at hv
  cases hp : parseAtTime (at_time.getD "") with
  | none => simp only [hp]
  | some pr =>
    obtain ⟨h, m⟩ := pr
    rw [hp] at hv
    simp only [decide_eq_false_iff_not] at hv
    simp only [hp, if_neg hv]

theorem async_cancel_action_prefs (s : CoordState) (k : String)
    (silent : Bool) (reason : String) :
    (async_cancel_action s k silent reason).2.prefs = s.prefs := by
  cases hb : (memb s.scheduledTasks k || (alookup s.tasks k).isSome) with
  | false => rw [async_cancel_action_snd_not_found s k silent reason hb]
  | true => exact (async_cancel_action_snd_found s k silent reason hb).2.2.2.1

theorem async_cancel_action_svcCalls (s : CoordState) (k : String)
    (silent : Bool) (reason : String) :
    (async_cancel_action s k silent reason).2.svcCalls = s.svcCalls := by
  cases hb : (memb s.scheduledTasks k || (alookup s.tasks k).isSome) with
  | false => rw [async_cancel_action_snd_not_found s k silent reason hb]
  | true => exact (async_cancel_action_snd_found s k silent reason hb).2.2.2.2

/-- Claim C2 counterexample: with a task, a timer handle and a listener
present for `light.x`, a schedule call in absolute mode with the
malformed time string `"oops"` returns normally (the parse error is
caught and logged), yet the previously existing task for the same key is
no longer in the Task Store — the initial silent cancel removed it
before the time string was parsed (`__init__.py:182` runs before
`__init__.py:190`). -/
theorem c2_claim_counterexample :
    alookup demoState.tasks "light.x" = some demoTask ∧
    (async_schedule_action demoState "light.x" 10 "minutes" "off" false false false false
        (some "oops") "absolute" ⟨1700000000000000⟩ svcOkOracle).toOption.map
      (fun s1 => alookup s1.tasks "light.x") = some none := by
  exact ⟨rfl, rfl⟩

/-- Claim C2 (amended): a schedule call in absolute mode with a
malformed `at_time` aborts with a reported error and performs no state
change beyond the initial silent cancellation of step 1: the call
returns exactly the state left by `async_cancel_action(key,
silent=True)`, the Preference Store and the executor log are untouched,
and no new task, timer handle or listener is created — but any
previously existing task for the key has been removed by that initial
cancel, so it is not still present afterwards (when no task existed
beforehand, the state is completely unchanged). -/
theorem c2_malformed_abort (s : CoordState) (k : String) (delay : Int)
    (unit action : String) (n rn nh nm : Bool) (at_time : Option String)
    (now : PyDateTime) (svc : SvcOracle)
    (ht : pyTruthy at_time = true) (hv : atTimeValid at_time = false) :
    async_schedule_action s k delay unit action n rn nh nm at_time "absolute" now svc
      = .ok ((async_cancel_action s k true "user_request").2) ∧
    alookup ((async_cancel_action s k true "user_request").2).tasks k = none ∧
    memb ((async_cancel_action s k true "user_request").2).scheduledTasks k = false ∧
    ((async_cancel_action s k true "user_request").2).prefs = s.prefs ∧
    ((async_cancel_action s k true "user_request").2).svcCalls = s.svcCalls ∧
    ((memb s.scheduledTasks k || (alookup s.tasks k).isSome) = false →
       (async_cancel_action s k true "user_request").2 = s) := by
  refine ⟨?_, async_cancel_action_no_task s k true "user_request",
          async_cancel_action_no_timer s k true "user_request",
          async_cancel_action_prefs s k true "user_request",
          async_cancel_action_svcCalls s k true "user_request",
          fun hb => async_cancel_action_snd_not_found s k true "user_request" hb⟩
  unfold async_schedule_action
  rw [computeTimes_err_of_malformed at_time delay unit now ht hv]

/-- Claim C2 witness: the amended statement holds at a concrete state
and the malformed time string `"25:99x"`. -/
theorem c2_malformed_abort_witness :
    pyTruthy (some "25:99x") = true ∧ atTimeValid (some "25:99x") = false ∧
    (async_schedule_action demoState "light.x" 10 "minutes" "off" false false false false
        (some "25:99x") "absolute" ⟨1700000000000000⟩ svcOkOracle
      = .ok ((async_cancel_action demoState "light.x" true "user_request").2)) :=
  ⟨by decide, by decide,
   (c2_malformed_abort demoState "light.x" 10 "minutes" "off" false false false false
      (some "25:99x") ⟨1700000000000000⟩ svcOkOracle (by decide) (by decide)).1⟩

/-- Claim C5: for every schedule call that passes time computation,
in relative mode the fire time minus the creation time is exactly
`delay * unit_factor` seconds with factors 1 for seconds, 3600 for
hours and 60 for any other unit (`convert_to_seconds`); in absolute
mode with a well-formed in-range HH:MM the fire time is today at
HH:MM:00 when that instant is strictly after `now`, and otherwise
exactly one day later at the same HH:MM:00. -/
theorem c5_time_computation (now : PyDateTime) (delay : Int) (unit : String)
    (atv : Option String) (atStr : String) (h m : Int) :
    (computeTimes "relative" atv delay unit now
       = .ok ⟨now.usec + convert_to_seconds delay unit * 1000000⟩
             (convert_to_seconds delay unit)) ∧
    convert_to_seconds delay "seconds" = delay * 1 ∧
    convert_to_seconds delay "hours" = delay * 3600 ∧
    (unit ≠ "seconds" → unit ≠ "hours" → convert_to_seconds delay unit = delay * 60) ∧
    (atStr ≠ "" → parseAtTime atStr = some (h, m) →
      0 ≤ h → h ≤ 23 → 0 ≤ m → m ≤ 59 →
      ∃ ds, computeTimes "absolute" (some atStr) delay unit now
        = .ok (if now.usec < (replaceHM now h m).usec then replaceHM now h m
               else ⟨(replaceHM now h m).usec + usecPerDay⟩) ds) := by
  refine ⟨?_, by simp [convert_to_seconds], rfl, ?_, ?_⟩
  · rfl
  · intro h1 h2
    simp [convert_to_seconds, h1, h2]
  · intro hne hp h0 h23 m0 m59
    by_cases hle : (replaceHM now h m).usec ≤ now.usec
    · refine ⟨((replaceHM now h m).usec + usecPerDay - now.usec) / 1000000, ?_⟩
      unfold computeTimes
      rw [if_pos ⟨rfl, by simp [pyTruthy, hne]⟩]
      simp only [Option.getD_some, hp,
        if_pos (⟨h0, h23, m0, m59⟩ : 0 ≤ h ∧ h ≤ 23 ∧ 0 ≤ m ∧ m ≤ 59)]
      rw [if_pos hle, if_neg (Int.not_lt.mpr hle)]
    · refine ⟨((replaceHM now h m).usec - now.usec) / 1000000, ?_⟩
      unfold computeTimes
      rw [if_pos ⟨rfl, by simp [pyTruthy, hne]⟩]
      simp only [Option.getD_some, hp,
        if_pos (⟨h0, h23, m0, m59⟩ : 0 ≤ h ∧ h ≤ 23 ∧ 0 ≤ m ∧ m ≤ 59)]
      rw [if_neg hle, if_pos (Int.not_le.mp hle)]

/-- Claim C5 witness: concrete evaluation at `now` one second after
midnight with a 5-minute relative delay and the absolute time `08:30`. -/
theorem c5_time_computation_witness :
    (computeTimes "relative" none 5 "minutes" ⟨1000000⟩
       = .ok ⟨1000000 + convert_to_seconds 5 "minutes" * 1000000⟩ (convert_to_seconds 5 "minutes")) ∧
    ("08:30" ≠ "" ∧ parseAtTime "08:30" = some (8, 30)) ∧
    (∃ ds, computeTimes "absolute" (some "08:30") 5 "minutes" ⟨1000000⟩
       = .ok (if (1000000 : Int) < (replaceHM ⟨1000000⟩ 8 30).usec then replaceHM ⟨1000000⟩ 8 30
              else ⟨(replaceHM ⟨1000000⟩ 8 30).usec + usecPerDay⟩) ds) :=
  ⟨(c5_time_computation ⟨1000000⟩ 5 "minutes" none "08:30" 8 30).1,
   ⟨by decide, by decide⟩,
   (c5_time_computation ⟨1000000⟩ 5 "minutes" none "08:30" 8 30).2.2.2.2
     (by decide) (by decide) (by decide) (by decide) (by decide) (by decide)⟩

/-- Claim C6: `async_cancel_action(key)` returns `true` exactly when a
timer handle or a Task Store record exists for the key at call time; on
`true` it removes the timer handle, the listener and the store record,
so an immediate second call returns `false`; when neither exists it is a
no-op returning `false` with the state unchanged. -/
theorem c6_cancel_semantics (s : CoordState) (k : String) (silent : Bool) (reason : String) :
    ((async_cancel_action s k silent reason).1
       = (memb s.scheduledTasks k || (alookup s.tasks k).isSome)) ∧
    ((memb s.scheduledTasks k || (alookup s.tasks k).isSome) = false →
       (async_cancel_action s k silent reason).2 = s) ∧
    ((memb s.scheduledTasks k || (alookup s.tasks k).isSome) = true →
       alookup (async_cancel_action s k silent reason).2.tasks k = none ∧
       memb (async_cancel_action s k silent reason).2.scheduledTasks k = false ∧
       alookup (async_cancel_action s k silent reason).2.stateListeners k = none ∧
       (async_cancel_action ((async_cancel_action s k silent reason).2) k silent reason).1
         = false) := by
  refine ⟨async_cancel_action_fst s k silent reason,
          fun hb => async_cancel_action_snd_not_found s k silent reason hb,
          fun hb => ?_⟩
  obtain ⟨ht, hsch, hlis, _, _⟩ := async_cancel_action_snd_found s k silent reason hb
  refine ⟨async_cancel_action_no_task s k silent reason,
          async_cancel_action_no_timer s k silent reason,
          ?_, ?_⟩
  · rw [hlis]; exact alookup_eraseKey_self _ _
  · rw [async_cancel_action_fst]
    rw [async_cancel_action_no_timer s k silent reason, async_cancel_action_no_task s k silent reason]
    rfl

/-- Claim C6 witness: at a state with a task for `light.x`, cancelling
returns `true` and removes everything, and the second cancel returns
`false`. -/
theorem c6_cancel_semantics_witness :
    (memb demoState.scheduledTasks "light.x" || (alookup demoState.tasks "light.x").isSome) = true ∧
    alookup (async_cancel_action demoState "light.x" false "user_request").2.tasks "light.x" = none ∧
    memb (async_cancel_action demoState "light.x" false "user_request").2.scheduledTasks "light.x" = false ∧
    alookup (async_cancel_action demoState "light.x" false "user_request").2.stateListeners "light.x" = none ∧
    (async_cancel_action ((async_cancel_action demoState "light.x" false "user_request").2)
        "light.x" false "user_request").1 = false :=
  ⟨by decide,
   (c6_cancel_semantics demoState "light.x" false "user_request").2.2 (by decide)⟩

/-- Claim C3 counterexample: with a failing Action Executor (every
service call reports failure), the timer callback still fires the
`quick_timer_task_completed` event and sends the success notification —
because `_execute_action` catches the failure internally
(`__init__.py:404-405`), the `except` branch of the callback never sees
executor failures.  The executor log records the failed call, the error
log records the caught failure, and no failure notification is sent. -/
theorem c3_claim_counterexample :
    (execute_action_callback svcFailOracle demoState "light.x" "off" true true false).svcCalls
      = [⟨"light", "turn_off", "light.x", none, false⟩] ∧
    (execute_action_callback svcFailOracle demoState "light.x" "off" true true false).events
      = [⟨"quick_timer_task_completed", "light.x", "off"⟩] ∧
    (execute_action_callback svcFailOracle demoState "light.x" "off" true true false).notifs
      = [("Executed: OFF for light.x", "Scheduled action completed successfully")] ∧
    (execute_action_callback svcFailOracle demoState "light.x" "off" true true false).errorLog
      = ["Failed to execute action off for light.x"] := by
  exact ⟨rfl, rfl, rfl, rfl⟩

/-- Claim C3 (amended): the execution handler emits the
`task_completed` event and the optional success notification whenever it
runs, regardless of the Action Executor outcome, because
`_execute_action` catches executor failures internally (logging them);
the handler performs exactly one executor invocation, never retries or
re-arms (the timer handle, listener and store record for the key are all
removed, and nothing is added), and cleanup runs unconditionally, so a
task fires at most once. -/
theorem c3_execution_handler (svc : SvcOracle) (s : CoordState)
    (k act : String) (n nh nm : Bool) :
    (execute_action_callback svc s k act n nh nm).events
      = s.events ++ [⟨"quick_timer_task_completed", k, act⟩] ∧
    (execute_action_callback svc s k act n nh nm).svcCalls
      = s.svcCalls ++ [⟨(resolveService k act).domain, (resolveService k act).service, k,
                        (resolveService k act).hvac_mode,
                        svc (resolveService k act).domain (resolveService k act).service k⟩] ∧
    (execute_action_callback svc s k act n nh nm).tasks = eraseKey s.tasks k ∧
    (execute_action_callback svc s k act n nh nm).scheduledTasks = eraseElem s.scheduledTasks k ∧
    (execute_action_callback svc s k act n nh nm).stateListeners = eraseKey s.stateListeners k ∧
    alookup (execute_action_callback svc s k act n nh nm).tasks k = none ∧
    memb (execute_action_callback svc s k act n nh nm).scheduledTasks k = false ∧
    (execute_action_callback svc s k act n nh nm).notifs
      = s.notifs ++ (if nh || nm then
          [("Executed: " ++ pyUpper act ++ " for " ++ k,
            "Scheduled action completed successfully")]
        else []) := by
  refine ⟨?_, ?_, ?_, ?_, ?_, ?_, ?_, ?_⟩ <;>
    simp only [execute_action_callback, cleanup_task, fireEvent]
  · split <;> simp
  · split <;> simp
  · split <;> simp [cleanup_task]
  · split <;> simp [cleanup_task]
  · split <;> simp [cleanup_task]
  · split <;> simp [cleanup_task, alookup_eraseKey_self]
  · split <;> simp [cleanup_task, memb_eraseElem_self]
  · split
    · rename_i hcond
      simp [send_notification, hcond]
    · rename_i hcond
      simp only [Bool.not_eq_true] at hcond
      simp [hcond]

/-- Claim C8: an armed state-change listener for `(key, scheduled
action)` cancels the task with reason `"manual_state_change"` exactly
when the scheduled action is `on` and the new state is `on`, or the
scheduled action is `off` and the new state is `off`, or the scheduled
action is `toggle` and the new state differs from the old state; in all
other observed transitions (including a missing old or new state) the
state is left untouched. -/
theorem c8_auto_cancel_policy (s : CoordState) (k act o n : String) :
    (should_cancel_decision act o n = true ↔
       (act = "on" ∧ n = "on") ∨ (act = "off" ∧ n = "off") ∨
       (act = "toggle" ∧ n ≠ o)) ∧
    (state_change_listener s k act (some o) (some n)
       = (if should_cancel_decision act o n
          then (async_cancel_action s k false "manual_state_change").2 else s)) ∧
    (should_cancel_decision act o n = false →
       state_change_listener s k act (some o) (some n) = s) ∧
    state_change_listener s k act none (some n) = s ∧
    state_change_listener s k act (some o) none = s ∧
    state_change_listener s k act none none = s := by
  refine ⟨?_, ?_, ?_, rfl, rfl, rfl⟩
  · unfold should_cancel_decision
    split
    · rename_i h1
      exact iff_of_true rfl (Or.inl h1)
    · split
      · rename_i h1 h2
        exact iff_of_true rfl (Or.inr (Or.inl h2))
      · split
        · rename_i h1 h2 h3
          exact iff_of_true rfl (Or.inr (Or.inr h3))
        · rename_i h1 h2 h3
          refine iff_of_false (by simp) ?_
          rintro (h | h | h)
          · exact h1 h
          · exact h2 h
          · exact h3 h
  · rfl
  · intro hf
    unfold state_change_listener
    simp [hf]

/-- Claim C8 witness: a scheduled `off` action with an observed
transition to `off` triggers the listener cancel path at a concrete
state. -/
theorem c8_auto_cancel_policy_witness :
    should_cancel_decision "off" "on" "off" = true ∧
    (state_change_listener demoState "light.x" "off" (some "on") (some "off")
      = (if should_cancel_decision "off" "on" "off"
         then (async_cancel_action demoState "light.x" false "manual_state_change").2
         else demoState)) ∧
    state_change_listener demoState "light.x" "off" (some "off") (some "on") = demoState :=
  ⟨by decide, (c8_auto_cancel_policy demoState "light.x" "off" "on" "off").2.1,
   (c8_auto_cancel_policy demoState "light.x" "off" "off" "on").2.2.1 (by decide)⟩

theorem execute_action_callback_svcCalls (svc : SvcOracle) (s : CoordState)
    (k act : String) (n nh nm : Bool) :
    (execute_action_callback svc s k act n nh nm).svcCalls
      = s.svcCalls ++ [⟨(resolveService k act).domain, (resolveService k act).service, k,
                        (resolveService k act).hvac_mode,
                        svc (resolveService k act).domain (resolveService k act).service k⟩] := by
  simp only [execute_action_callback, cleanup_task, fireEvent]
  split <;> simp

theorem execute_action_callback_no_task (svc : SvcOracle) (s : CoordState)
    (k act : String) (n nh nm : Bool) :
    alookup (execute_action_callback svc s k act n nh nm).tasks k = none := by
  simp only [execute_action_callback, cleanup_task, fireEvent]
  split <;> simp [alookup_eraseKey_self]

/-- Claim C7: during `restore()` each persisted task is handled by the
loop body `restoreOne`: an unparsable (or absent) timestamp deletes the
record without any executor call; a task whose effective time (the
`end_time` falling back to `scheduled_time`) is at or before `now` is
executed exactly once — one executor invocation resolving the stored
action — and its record is removed; a task with a future time is
re-armed (its key enters the timer-handle map, the store and executor
log untouched) and its state listener is re-subscribed with the stored
action exactly when its `run_now` flag is unset. -/
theorem c7_restore_semantics (parseDT : String → Option PyDateTime) (svc : SvcOracle)
    (now : PyDateTime) (s : CoordState) (k : String) (task : StoredTask) :
    (s.tasks = [(k, task)] →
       async_restore_tasks parseDT svc now s = restoreOne parseDT svc now s k task) ∧
    (restoreParsedTime parseDT task = none →
       restoreOne parseDT svc now s k task = removeTaskS s k ∧
       (restoreOne parseDT svc now s k task).svcCalls = s.svcCalls) ∧
    (∀ t, restoreParsedTime parseDT task = some t → t.usec ≤ now.usec →
       (restoreOne parseDT svc now s k task).svcCalls
         = s.svcCalls ++ [⟨(resolveService k task.action).domain,
                           (resolveService k task.action).service, k,
                           (resolveService k task.action).hvac_mode,
                           svc (resolveService k task.action).domain
                             (resolveService k task.action).service k⟩] ∧
       alookup (restoreOne parseDT svc now s k task).tasks k = none) ∧
    (∀ t, restoreParsedTime parseDT task = some t → now.usec < t.usec →
       (restoreOne parseDT svc now s k task).tasks = s.tasks ∧
       (restoreOne parseDT svc now s k task).svcCalls = s.svcCalls ∧
       memb (restoreOne parseDT svc now s k task).scheduledTasks k = true ∧
       (task.run_now.getD false = false →
          alookup (restoreOne parseDT svc now s k task).stateListeners k = some task.action) ∧
       (task.run_now.getD false = true →
          (restoreOne parseDT svc now s k task).stateListeners = s.stateListeners)) := by
  refine ⟨?_, ?_, ?_, ?_⟩
  · intro h
    unfold async_restore_tasks
    rw [h]
    rfl
  · intro hn
    unfold restoreOne
    rw [hn]
    exact ⟨rfl, rfl⟩
  · intro t ht hle
    unfold restoreOne
    rw [ht]
    simp only [if_pos hle]
    exact ⟨execute_action_callback_svcCalls svc s k task.action (task.notify.getD true) false false,
           execute_action_callback_no_task svc s k task.action (task.notify.getD true) false false⟩
  · intro t ht hlt
    unfold restoreOne
    rw [ht]
    simp only [if_neg (Int.not_le.mpr hlt)]
    by_cases hrn : task.run_now.getD false = false
    · simp only [if_pos hrn, setup_state_listener]
      refine ⟨by simp, by simp, by simp [memb_keyInsert_self],
              fun _ => by simp [alookup_ainsert_self],
              fun hcontra => absurd hrn (by simp [hcontra])⟩
    · simp only [if_neg hrn]
      refine ⟨by simp, by simp, by simp [memb_keyInsert_self],
              fun hcontra => absurd hcontra hrn, fun _ => by simp⟩

/-- Claim C7 witness: a concrete overdue task (effective time at or
before `now`) is executed once and leaves no record, at a concrete
parser that recognises the stored `end_time` string. -/
theorem c7_restore_semantics_witness :
    restoreParsedTime (fun str => if str = "2024-01-01T10:00:00" then some ⟨500⟩ else none) demoTask
      = some ⟨500⟩ ∧
    ((500 : Int) ≤ 1000) ∧
    ((restoreOne (fun str => if str = "2024-01-01T10:00:00" then some ⟨500⟩ else none)
        svcOkOracle ⟨1000⟩ demoState "light.x" demoTask).svcCalls
      = [] ++ [⟨(resolveService "light.x" demoTask.action).domain,
                (resolveService "light.x" demoTask.action).service, "light.x",
                (resolveService "light.x" demoTask.action).hvac_mode,
                svcOkOracle (resolveService "light.x" demoTask.action).domain
                  (resolveService "light.x" demoTask.action).service "light.x"⟩] ∧
     alookup (restoreOne (fun str => if str = "2024-01-01T10:00:00" then some ⟨500⟩ else none)
        svcOkOracle ⟨1000⟩ demoState "light.x" demoTask).tasks "light.x" = none) :=
  ⟨by decide, by decide,
   (c7_restore_semantics (fun str => if str = "2024-01-01T10:00:00" then some ⟨500⟩ else none)
      svcOkOracle ⟨1000⟩ demoState "light.x" demoTask).2.2.1 ⟨500⟩ (by decide) (by decide)⟩

/-- Claim C9 counterexample: `async_add_to_history` only removes
entries whose composite key equals that of the new entry
(`store.py:203-216`), so two identical pre-existing entries with a
different key both survive, and the resulting history violates the
claimed no-two-entries-share-a-key property. -/
theorem c9_claim_counterexample :
    (((alookup (async_add_to_history c9prefs "light.x" newEntryB) "light.x").getD
        {}).history.getD []) = [newEntryB, dupEntryA, dupEntryA] ∧
    ¬ (((alookup (async_add_to_history c9prefs "light.x" newEntryB) "light.x").getD
        {}).history.getD []).Pairwise
        (fun a b => historyEntryKey a ≠ historyEntryKey b) := by
  constructor
  · rfl
  · decide

/-- Claim C9 (amended): after every `add_to_history`, the history for
the key has at most 3 entries and the new entry is at the front; and
provided no two entries of the prior history share a composite key (the
invariant `add_to_history` itself maintains, though `set_preferences`
can inject a history violating it), no two entries of the resulting
history share a composite key. -/
theorem c9_history_invariant (prefs : List (String × PrefRecord))
    (k : String) (entry : HistoryEntry) :
    (((alookup (async_add_to_history prefs k entry) k).getD {}).history.getD []).length ≤ 3 ∧
    (((alookup (async_add_to_history prefs k entry) k).getD {}).history.getD []).head?
      = some entry ∧
    ((((alookup prefs k).getD {}).history.getD []).Pairwise
        (fun a b => historyEntryKey a ≠ historyEntryKey b) →
      (((alookup (async_add_to_history prefs k entry) k).getD {}).history.getD []).Pairwise
        (fun a b => historyEntryKey a ≠ historyEntryKey b)) := by
  have hpost : alookup (async_add_to_history prefs k entry) k
      = some { (alookup prefs k).getD {} with
               history := some ((entry ::
                 (((alookup prefs k).getD {}).history.getD []).filter
                   (fun h => historyEntryKey h ≠ historyEntryKey entry)).take 3) } := by
    unfold async_add_to_history
    exact alookup_ainsert_self _ _ _
  rw [hpost]
  simp only [Option.getD_some]
  refine ⟨?_, ?_, ?_⟩
  · simpa using List.length_take_le 3 _
  · rw [show (3 : Nat) = 2 + 1 from rfl, List.take_succ_cons]
    rfl
  · intro hp
    have hfil : List.Sublist
        ((((alookup prefs k).getD {}).history.getD []).filter
          (fun h => historyEntryKey h ≠ historyEntryKey entry))
        (((alookup prefs k).getD {}).history.getD []) := List.filter_sublist _
    have h1 := hp.sublist hfil
    have h2 : (entry ::
        (((alookup prefs k).getD {}).history.getD []).filter
          (fun h => historyEntryKey h ≠ historyEntryKey entry)).Pairwise
        (fun a b => historyEntryKey a ≠ historyEntryKey b) := by
      rw [List.pairwise_cons]
      refine ⟨fun b hb => ?_, h1⟩
      have := (List.mem_filter.mp hb).2
      exact (of_decide_eq_true this).symm
    exact h2.sublist (List.take_sublist 3 _)

/-- Claim C9 witness: adding a new entry to a history with pairwise
distinct keys keeps the keys pairwise distinct. -/
theorem c9_history_invariant_witness :
    (((alookup (async_add_to_history c9wprefs "light.x" newEntryB) "light.x").getD
        {}).history.getD []).Pairwise
      (fun a b => historyEntryKey a ≠ historyEntryKey b) :=
  (c9_history_invariant c9wprefs "light.x" newEntryB).2.2 (by decide)
